import Mathlib

/-!
Verification development for the empower-core service runtime.

The definitions below are a shallow embedding of the relevant parts of
`empower_core/service.py` (parameter validation, the lifecycle control
loop, the callback registry and dispatch) and
`empower_core/projectsmanager/projectsmanager.py` (container removal).
Python dictionaries are modelled as association lists with unique keys,
Python exceptions as explicit error values, effects on the persistence
layer and the tornado event loop as explicit event traces, and the
tornado ioloop itself as a set of running timer identifiers.
-/

namespace EmpowerCore

/-- Atomic Python values, used as elements of list values. -/
inductive PAtom where
  | ANone
  | AStr (s : String)
  | AInt (n : Int)
  | ABool (b : Bool)
deriving DecidableEq, Repr

/-- Python values as they occur in service parameters and manifests.
List elements are restricted to atomic values (the source only ever
stores flat lists in manifests and parameters). `VDomain ty raw` stands
for an instance of one of the domain value classes (IMSI, PLMNID, SSID,
EtherAddress, defined outside the repository) holding the textual form
of the value it was constructed from. -/
inductive PValue where
  | VNone
  | VStr (s : String)
  | VInt (n : Int)
  | VBool (b : Bool)
  | VList (l : List PAtom)
  | VDomain (ty : String) (raw : String)
deriving DecidableEq, Repr

/-- Python truthiness, as tested by the `if not value` checks in
`EService.validate_param` and by `params if params else self` in
`EService.handle_callbacks`. -/
def truthy : PValue → Bool
  | .VNone => false
  | .VStr s => s != ""
  | .VInt n => n != 0
  | .VBool b => b
  | .VList l => !l.isEmpty
  | .VDomain _ _ => true

/-- Errors raised by the embedded code. Each constructor corresponds to
one `raise` site (or builtin exception) of the source; the source raises
`ValueError` or `KeyError` with a distinguishing message, which the
constructor name records. -/
inductive VError where
  /-- ValueError, message `Invalid paramer: ...` (sic, typo is in the source). -/
  | unknownParameter (param : String)
  /-- ValueError, message `Parameter cannot be modified: ...`. -/
  | immutableParameter (param : String)
  /-- ValueError, message `Parameter ... cannot be null`. -/
  | missingMandatory (param : String)
  /-- ValueError, message `Invalid value for ... expected ...`. -/
  | unknownTypeName (param : String) (ty : String)
  /-- An exception raised inside a cast constructor call, e.g. by int(). -/
  | castFailure (ty : String)
  /-- ValueError, message `Invalid value for ... valid ... got ...`. -/
  | notInEnum (param : String)
  /-- ValueError, message `Invalid value for ...` (fallthrough case). -/
  | invalidTypeShape (param : String)
  /-- Python KeyError on a missing dictionary key. -/
  | keyError (key : String)
  /-- Python AttributeError, e.g. calling .stop() on None. -/
  | attributeError (attr : String)
  /-- KeyError, message `Callback ... not defined`. -/
  | callbackNotDefined (name : String)
  /-- ValueError, message `Invalid callback type: ...`. -/
  | invalidCallbackType (t : String)
  /-- ValueError, message `Callback not callable`. -/
  | callbackNotCallable
  /-- ValueError, message `Invalid input to add callback`. -/
  | invalidAddCallback
  /-- Python TypeError. -/
  | typeError (msg : String)
deriving DecidableEq, Repr

/-- Python str() on an atom. -/
def pAtomStr : PAtom → String
  | .ANone => "None"
  | .AStr s => s
  | .AInt n => toString n
  | .ABool b => if b then "True" else "False"

/-- Python str() builtin (the `str` entry of the cast dictionary of
`validate_param`). The representation of list elements is simplified
(element quoting is omitted); no claim depends on it. -/
def pyStr : PValue → String
  | .VNone => "None"
  | .VStr s => s
  | .VInt n => toString n
  | .VBool b => if b then "True" else "False"
  | .VList l => "[" ++ String.intercalate ", " (l.map pAtomStr) ++ "]"
  | .VDomain _ raw => raw

/-- Python int() builtin (the `int` entry of the cast dictionary of
`validate_param`). Strings are trimmed and parsed as decimal integers;
None and lists raise. -/
def pyInt : PValue → Except VError Int
  | .VInt n => .ok n
  | .VBool b => .ok (if b then 1 else 0)
  | .VStr s =>
    match s.trim.toInt? with
    | some n => .ok n
    | none => .error (.castFailure "int")
  | _ => .error (.castFailure "int")

/-- The shape of the `type` field of a manifest parameter entry: either
a type name string, or a list of allowed values, or anything else
(rejected by `validate_param`). -/
inductive PType where
  | TName (s : String)
  | TEnum (allowed : List PValue)
  | TOther
deriving DecidableEq, Repr

/-- One entry of the `params` section of a service manifest.
`static` defaults to false, mirroring `manifest.get` with default False
in the source; `default` is the optional `default` key, read with a
plain indexing operation (KeyError when absent). -/
structure ManifestEntry where
  mandatory : Bool
  ptype : PType
  static : Bool := false
  default : Option PValue := none
deriving DecidableEq, Repr

/-- A service manifest: the declared parameters and, when the manifest
has a `callbacks` key, the declared callback names. -/
structure Manifest where
  params : List (String × ManifestEntry) := []
  callbacks : Option (List String) := none
deriving DecidableEq, Repr

/-- First-match lookup in an association list (Python dict indexing;
the embedded dictionaries keep their keys unique). -/
def lookupAssoc {α β : Type} [DecidableEq α] (k : α) : List (α × β) → Option β
  | [] => none
  | (k2, v) :: rest => if k2 = k then some v else lookupAssoc k rest

/-- Python dict assignment: replace the value of an existing key in
place, or append a new binding. -/
def insertAssoc {α β : Type} [DecidableEq α] (k : α) (v : β) :
    List (α × β) → List (α × β)
  | [] => [(k, v)]
  | (k2, v2) :: rest =>
    if k2 = k then (k, v) :: rest else (k2, v2) :: insertAssoc k v rest

/-- Python del on a dict: remove the binding of a key. -/
def eraseAssoc {α β : Type} [DecidableEq α] (k : α) :
    List (α × β) → List (α × β)
  | [] => []
  | (k2, v2) :: rest =>
    if k2 = k then rest else (k2, v2) :: eraseAssoc k rest

/-- A callback target as stored in the callbacks dict: an in-process
invocable (identified by an opaque handle) or a URL string. -/
inductive CallbackVal where
  | func (handle : Nat)
  | url (u : String)
deriving DecidableEq, Repr

/-- The dictionary stored for one callback by `EService.add_callback`:
name, callback target and callback type (`native` or `rest`). -/
structure CallbackEntry where
  name : String
  callback : CallbackVal
  callback_type : String
deriving DecidableEq, Repr

/-- The in-memory state of one `EService` instance. `manifest` models
the `manifest` property (`self.context.manager.catalog[self.name]`, a
read-only catalog lookup); `hasContext` models the truthiness of
`self.context`; `worker` is the current `tornado PeriodicCallback`
handle, identified by the timer id it was allocated with. -/
structure ServiceState where
  serviceId : Nat
  hasContext : Bool := true
  manifest : Manifest := {}
  params : List (String × PValue) := []
  callbacks : List (String × CallbackEntry) := []
  worker : Option Nat := none
deriving DecidableEq, Repr

def CALLBACK_NATIVE : String := "native"

def CALLBACK_REST : String := "rest"

def CALLBACK_TYPES : List String := [CALLBACK_NATIVE, CALLBACK_REST]

/-- The keys of the cast dictionary of `validate_param` (the
`EtherAdress` typo is in the source). -/
def castDictKeys : List String :=
  ["str", "int", "IMSI", "PLMNID", "SSID", "EtherAdress"]

/-- The `try to cast value to specified type` branch of
`validate_param`: `str` and `int` call the builtins; the domain value
types call their constructors, modelled as wrapping the textual form of
the value (these classes live outside the repository). -/
def castValue (ty : String) (value : PValue) : Except VError PValue :=
  if ty = "str" then .ok (.VStr (pyStr value))
  else if ty = "int" then (pyInt value).map PValue.VInt
  else .ok (.VDomain ty (pyStr value))

/-- `EService.validate_param`, translated clause by clause from the
source: unknown parameter, then the static (immutable) check, then the
two empty-value branches, then the cast-by-type-name branch, the
enumeration-membership branch, and the final rejection. -/
def validate_param (s : ServiceState) (param : String) (value : PValue) :
    Except VError PValue :=
  match lookupAssoc param s.manifest.params with
  | none => .error (.unknownParameter param)
  | some manifest =>
    if (lookupAssoc param s.params).isSome && manifest.static then
      .error (.immutableParameter param)
    else if !truthy value && !manifest.mandatory then
      match manifest.default with
      | some d => .ok d
      | none => .error (.keyError "default")
    else if !truthy value && manifest.mandatory then
      .error (.missingMandatory param)
    else
      match manifest.ptype with
      | .TName ty =>
        if ty ∈ castDictKeys then castValue ty value
        else .error (.unknownTypeName param ty)
      | .TEnum allowed =>
        if value ∈ allowed then .ok value
        else .error (.notInEnum param)
      | .TOther => .error (.invalidTypeShape param)

/-- Observable effects of the lifecycle operations: a durable save
through the context (`context.save_service_state`), the start or stop of
a periodic timer, log lines, and the completed POST of a REST callback
delivery. -/
inductive Ev where
  | save (sid : Nat)
  | timerStart (tid : Nat)
  | timerStop (tid : Nat)
  | logInfo (msg : String)
  | logExc (msg : String)
  | postDone (u : String) (status : Nat)
deriving DecidableEq, Repr

/-- `EService.save_service_state`: a no-op without a context, otherwise
one durable save of the service state, keyed by the service id. -/
def save_service_state (s : ServiceState) : List Ev :=
  if s.hasContext then [Ev.save s.serviceId] else []

/-- The tornado ioloop, reduced to what the claims observe: a fresh-id
counter for allocating `PeriodicCallback` objects and the set of timers
currently started (a started timer keeps running until its own stop
method is called, whether or not any service still references it). -/
structure IoLoop where
  nextId : Nat := 0
  running : List Nat := []
deriving DecidableEq, Repr

/-- Result of a lifecycle operation: the error raised (if any), the
ioloop and service state after the call (Python keeps mutations made
before a raise), and the trace of observable effects. -/
structure OpResult where
  err : Option VError
  io : IoLoop
  state : ServiceState
  trace : List Ev
deriving DecidableEq, Repr

/-- `EService.start`: reading `self.every` (`self.params` indexing, a
KeyError when absent); if the period equals -1, return without a timer;
otherwise allocate a new `PeriodicCallback`, overwrite `self.worker`
with it and start it. The previous worker, if any, is neither stopped
nor referenced afterwards. -/
def start (io : IoLoop) (s : ServiceState) : OpResult :=
  match lookupAssoc "every" s.params with
  | none => ⟨some (.keyError "every"), io, s, []⟩
  | some e =>
    if e = PValue.VInt (-1) then ⟨none, io, s, []⟩
    else
      let tid := io.nextId
      ⟨none, ⟨io.nextId + 1, io.running ++ [tid]⟩,
        { s with worker := some tid }, [Ev.timerStart tid]⟩

/-- `EService.stop`: first `save_service_state`, then read `self.every`;
if the period equals -1, return; otherwise call `self.worker.stop()`
(an AttributeError when the worker is None) and clear the handle. -/
def stop (io : IoLoop) (s : ServiceState) : OpResult :=
  let tr := save_service_state s
  match lookupAssoc "every" s.params with
  | none => ⟨some (.keyError "every"), io, s, tr⟩
  | some e =>
    if e = PValue.VInt (-1) then ⟨none, io, s, tr⟩
    else
      match s.worker with
      | none => ⟨some (.attributeError "stop"), io, s, tr⟩
      | some tid =>
        ⟨none, ⟨io.nextId, io.running.erase tid⟩,
          { s with worker := none }, tr ++ [Ev.timerStop tid]⟩

/-- The setter of the `every` property: store int(value) into
`self.params` and, when a worker is set, stop and restart the service.
No manifest validation is involved anywhere on this path. -/
def set_every (io : IoLoop) (s : ServiceState) (value : PValue) : OpResult :=
  match pyInt value with
  | .error e => ⟨some e, io, s, []⟩
  | .ok n =>
    let s1 : ServiceState :=
      { s with params := insertAssoc "every" (PValue.VInt n) s.params }
    match s1.worker with
    | none => ⟨none, io, s1, []⟩
    | some _ =>
      let r1 := stop io s1
      match r1.err with
      | some e => ⟨some e, r1.io, r1.state, r1.trace⟩
      | none =>
        let r2 := start r1.io r1.state
        ⟨r2.err, r2.io, r2.state, r1.trace ++ r2.trace⟩

/-- The scheme://rest splitter behind `urlparseGeturl`: scans for the
first `://` and returns the text before and after it. -/
def schemeSplit (acc : List Char) : List Char → Option (List Char × List Char)
  | ':' :: '/' :: '/' :: rest => some (acc.reverse, rest)
  | c :: rest => schemeSplit (c :: acc) rest
  | [] => none

/-- Modelled from the spec: the callback target `is normalized to a
canonical URL form` by the standard library urlparse/geturl pair, which
lives outside this repository. For URLs of the shape scheme://rest the
scheme is lowercased and the URL reassembled; strings without `://` are
returned unchanged, as urlparse would reassemble them for the shapes
exercised here. -/
def urlparseGeturl (u : String) : String :=
  match schemeSplit [] u.toList with
  | some (scheme, rest) =>
    String.mk (scheme.map Char.toLower) ++ "://" ++ String.mk rest
  | none => u

/-- `EService.add_callback`: check that the manifest has a `callbacks`
key and declares the name, that the callback type is one of the closed
set; native callbacks must be invocable and are stored without a save;
rest callbacks are stored with the normalized URL and the service state
is saved. The final rejection branch of the source is unreachable after
the callback-type check and is kept as the fallthrough. -/
def add_callback (s : ServiceState) (callback : CallbackVal)
    (name : String) (callback_type : String) :
    Except VError (ServiceState × List Ev) :=
  match s.manifest.callbacks with
  | none => .error (.callbackNotDefined name)
  | some declared =>
    if name ∉ declared then .error (.callbackNotDefined name)
    else if callback_type ∉ CALLBACK_TYPES then
      .error (.invalidCallbackType callback_type)
    else if callback_type = CALLBACK_NATIVE then
      match callback with
      | .func h =>
        let entry : CallbackEntry := ⟨name, .func h, CALLBACK_NATIVE⟩
        .ok ({ s with callbacks := insertAssoc name entry s.callbacks }, [])
      | .url _ => .error .callbackNotCallable
    else if callback_type = CALLBACK_REST then
      match callback with
      | .url u =>
        let entry : CallbackEntry := ⟨name, .url (urlparseGeturl u), CALLBACK_REST⟩
        let s1 : ServiceState :=
          { s with callbacks := insertAssoc name entry s.callbacks }
        .ok (s1, save_service_state s1)
      | .func _ => .error (.typeError "urlparse expects a string")
    else .error .invalidAddCallback

/-- `EService.rem_callback`: del of the entry (KeyError when absent),
then a save of the service state. -/
def rem_callback (s : ServiceState) (name : String) :
    Except VError (ServiceState × List Ev) :=
  if (lookupAssoc name s.callbacks).isSome then
    let s1 : ServiceState := { s with callbacks := eraseAssoc name s.callbacks }
    .ok (s1, save_service_state s1)
  else .error (.keyError name)

/-- The argument passed to a callback: the supplied params when truthy,
otherwise the service itself (`params if params else self`). -/
inductive Arg where
  | payload (p : PValue)
  | selfRef
deriving DecidableEq, Repr

/-- The argument selection of `EService.handle_callbacks`. -/
def pickArg (params : Option PValue) : Arg :=
  match params with
  | some p => if truthy p then .payload p else .selfRef
  | none => .selfRef

/-- The body of the try block of `EService.handle_callbacks`: invoke a
native handle with the argument, or POST the serialized argument to a
rest URL and log the status code. The delivery collaborators (the
in-process handle and the requests library) are passed in as functions
that may fail. A callback type outside the closed set does nothing. -/
def dispatch_one (invokeNative : Nat → Arg → Except String Unit)
    (postRest : String → Arg → Except String Nat)
    (entry : CallbackEntry) (argument : Arg) : Except String (List Ev) :=
  if entry.callback_type = CALLBACK_NATIVE then
    match entry.callback with
    | .func h => do
      let _ ← invokeNative h argument
      pure []
    | .url _ => .error "native callback is not callable"
  else if entry.callback_type = CALLBACK_REST then
    match entry.callback with
    | .url u => do
      let status ← postRest u argument
      pure [Ev.postDone u status]
    | .func _ => .error "cannot serialize a callable"
  else pure []

/-- `EService.handle_callbacks`: return immediately when the name is not
registered; otherwise log and run the dispatch inside try/except, where
every exception is caught and logged. The service state is never
modified. -/
def handle_callbacks (s : ServiceState)
    (invokeNative : Nat → Arg → Except String Unit)
    (postRest : String → Arg → Except String Nat)
    (params : Option PValue) (name : String) :
    Option VError × ServiceState × List Ev :=
  match lookupAssoc name s.callbacks with
  | none => (none, s, [])
  | some entry =>
    match dispatch_one invokeNative postRest entry (pickArg params) with
    | .ok evs => (none, s, Ev.logInfo name :: evs)
    | .error msg => (none, s, [Ev.logInfo name, Ev.logExc msg])

/-- Observable effects of `ProjectsManager.remove`: the stop of one
owned service, the deletion of the durable project record
(`project.delete()`), and the deletion of the in-memory entry. -/
inductive PEv where
  | stopSvc (sid : Nat)
  | dbDelete (pid : Nat)
  | memDelete (pid : Nat)
deriving DecidableEq, Repr

/-- A project as `ProjectsManager.remove` sees it: its identifier and
the identifiers of the services it owns. -/
structure Project where
  projectId : Nat
  services : List Nat
deriving DecidableEq, Repr

/-- The `projects` dictionary of the `ProjectsManager`. -/
structure PMState where
  projects : List (Nat × Project)
deriving DecidableEq, Repr

/-- Modelled from the spec: `Env.stop_services` is defined in
`empower_core/envmanager/env.py`, which is not among the source files.
The spec states that removing a container must first stop every owned
service; the call is modelled as a stop of each owned service in
order. -/
def stop_services (p : Project) : List PEv :=
  p.services.map PEv.stopSvc

/-- `ProjectsManager.remove`: KeyError when the project is not
registered (message `Project ... not registered`); otherwise stop the
running services, then delete the project from the database and from
the manager, in that order. -/
def remove (st : PMState) (project_id : Nat) :
    Option VError × PMState × List PEv :=
  match lookupAssoc project_id st.projects with
  | none => (some (.keyError (toString project_id)), st, [])
  | some project =>
    (none, ⟨eraseAssoc project_id st.projects⟩,
     stop_services project ++ [PEv.dbDelete project_id, PEv.memDelete project_id])

/-- A service whose manifest declares `every` as an int parameter and
whose period is 5000 (so a loop is supposed to run). -/
def c1Manifest : Manifest :=
  { params := [("every", { mandatory := false, ptype := .TName "int" })] }

def c1S0 : ServiceState :=
  { serviceId := 1, manifest := c1Manifest,
    params := [("every", PValue.VInt 5000)] }

/-- C1: the claim fails on the code. Starting the service twice from a
fresh ioloop allocates and starts a second periodic timer without
stopping the first: afterwards two timers are running (ids 0 and 1)
while the worker handle references only the second, so the first keeps
running unreferenced. `start` neither rejects the second call nor makes
it idempotent. -/
theorem start_twice_double_timer :
    (start (start ⟨0, []⟩ c1S0).io (start ⟨0, []⟩ c1S0).state).err = none ∧
    (start (start ⟨0, []⟩ c1S0).io (start ⟨0, []⟩ c1S0).state).io.running = [0, 1] ∧
    (start (start ⟨0, []⟩ c1S0).io (start ⟨0, []⟩ c1S0).state).state.worker = some 1 := by
  decide

/-- C4: validating a parameter name that the manifest does not declare
fails with the unknown-parameter error, for every service state and
every supplied value. -/
theorem validate_param_unknown (s : ServiceState) (param : String)
    (value : PValue)
    (h : lookupAssoc param s.manifest.params = none) :
    validate_param s param value = .error (.unknownParameter param) := by
  unfold validate_param
  rw [h]

def c4S0 : ServiceState := { serviceId := 4 }

/-- Witness for C4 at a concrete service with an empty manifest. -/
theorem validate_param_unknown_witness :
    validate_param c4S0 "bogus" (PValue.VInt 1) =
      .error (.unknownParameter "bogus") :=
  validate_param_unknown c4S0 "bogus" (PValue.VInt 1) rfl

def c6S0 : ServiceState :=
  { serviceId := 6, manifest := { callbacks := some ["default"] } }

def c6Entry : CallbackEntry :=
  ⟨"default", .url "http://example.org/hook", "rest"⟩

def c6S1 : ServiceState := { c6S0 with callbacks := [("default", c6Entry)] }

/-- C6: registering the REMOTE callback `default` with target
`http://example.org/hook` stores exactly the entry with name `default`,
callback type `rest` and the unchanged URL (and saves the state);
reading it back returns that entry; removing it restores the initial
state and a subsequent read finds nothing. -/
theorem callback_roundtrip :
    add_callback c6S0 (CallbackVal.url "http://example.org/hook")
        "default" "rest" = .ok (c6S1, [Ev.save 6]) ∧
    lookupAssoc "default" c6S1.callbacks = some c6Entry ∧
    rem_callback c6S1 "default" = .ok (c6S0, [Ev.save 6]) ∧
    lookupAssoc "default" c6S0.callbacks = none :=
  ⟨rfl, rfl, rfl, rfl⟩

/-- Shared helper: when the parameter is declared, the immutability
check does not fire, and the supplied value is falsy, `validate_param`
returns the manifest default for an optional parameter and the
missing-mandatory error for a mandatory one. -/
lemma validate_param_absent_cases (s : ServiceState) (param : String)
    (entry : ManifestEntry) (v : PValue)
    (h1 : lookupAssoc param s.manifest.params = some entry)
    (h2 : ((lookupAssoc param s.params).isSome && entry.static) = false)
    (h3 : truthy v = false) :
    (entry.mandatory = false → ∀ d, entry.default = some d →
        validate_param s param v = .ok d) ∧
    (entry.mandatory = true →
        validate_param s param v = .error (.missingMandatory param)) := by
  constructor
  · intro hm d hd
    unfold validate_param
    rw [h1]
    simp [h2, h3, hm, hd]
  · intro hm
    unfold validate_param
    rw [h1]
    simp [h2, h3, hm]

/-- C5: for a declared parameter on which the preceding immutability
check does not fire, an empty (falsy) supplied value yields the manifest
default when the parameter is optional and the missing-mandatory error
when it is mandatory. -/
theorem validate_param_empty_value (s : ServiceState) (param : String)
    (entry : ManifestEntry) (v : PValue)
    (h1 : lookupAssoc param s.manifest.params = some entry)
    (h2 : ((lookupAssoc param s.params).isSome && entry.static) = false)
    (h3 : truthy v = false) :
    (entry.mandatory = false → ∀ d, entry.default = some d →
        validate_param s param v = .ok d) ∧
    (entry.mandatory = true →
        validate_param s param v = .error (.missingMandatory param)) :=
  validate_param_absent_cases s param entry v h1 h2 h3

def c5Entry : ManifestEntry :=
  { mandatory := false, ptype := .TName "str", default := some (PValue.VStr "dflt") }

def c5S0 : ServiceState :=
  { serviceId := 5, manifest := { params := [("p", c5Entry)] } }

def c5EntryM : ManifestEntry := { mandatory := true, ptype := .TName "str" }

def c5S1 : ServiceState :=
  { serviceId := 5, manifest := { params := [("q", c5EntryM)] } }

/-- Witness for C5: an absent value for the optional parameter returns
the declared default, and for the mandatory parameter the
missing-mandatory error. -/
theorem validate_param_empty_value_witness :
    validate_param c5S0 "p" PValue.VNone = .ok (PValue.VStr "dflt") ∧
    validate_param c5S1 "q" PValue.VNone =
      .error (.missingMandatory "q") :=
  ⟨(validate_param_empty_value c5S0 "p" c5Entry PValue.VNone rfl rfl rfl).1
      rfl (PValue.VStr "dflt") rfl,
   (validate_param_empty_value c5S1 "q" c5EntryM PValue.VNone rfl rfl rfl).2 rfl⟩

/-- C10: every falsy supplied value (None, the empty string, the int 0,
False, the empty list) is treated as absent by `validate_param`: for an
optional parameter the manifest default is returned, discarding the
supplied value; for a mandatory parameter the value is rejected as
null. -/
theorem validate_param_falsy_absent (s : ServiceState) (param : String)
    (entry : ManifestEntry) (v : PValue)
    (h1 : lookupAssoc param s.manifest.params = some entry)
    (h2 : ((lookupAssoc param s.params).isSome && entry.static) = false)
    (hv : v = PValue.VNone ∨ v = PValue.VStr "" ∨ v = PValue.VInt 0 ∨
          v = PValue.VBool false ∨ v = PValue.VList []) :
    truthy v = false ∧
    (entry.mandatory = false → ∀ d, entry.default = some d →
        validate_param s param v = .ok d) ∧
    (entry.mandatory = true →
        validate_param s param v = .error (.missingMandatory param)) := by
  have h3 : truthy v = false := by
    rcases hv with h | h | h | h | h <;> subst h <;> rfl
  exact ⟨h3, validate_param_absent_cases s param entry v h1 h2 h3⟩

def c10Entry : ManifestEntry :=
  { mandatory := false, ptype := .TName "int", default := some (PValue.VInt 99) }

def c10S0 : ServiceState :=
  { serviceId := 10, manifest := { params := [("p", c10Entry)] } }

/-- Witness for C10: the explicitly supplied value 0 is discarded and
the optional parameter comes back as its manifest default 99. -/
theorem validate_param_falsy_absent_witness :
    truthy (PValue.VInt 0) = false ∧
    validate_param c10S0 "p" (PValue.VInt 0) = .ok (PValue.VInt 99) := by
  have h := validate_param_falsy_absent c10S0 "p" c10Entry (PValue.VInt 0)
    rfl rfl (Or.inr (Or.inr (Or.inl rfl)))
  exact ⟨h.1, h.2.1 rfl (PValue.VInt 99) rfl⟩

/-- Events that manipulate a timer. -/
def isTimerEv : Ev → Bool
  | .timerStart _ => true
  | .timerStop _ => true
  | _ => false

/-- C2: on a service whose periodic loop is disabled (`every = -1`, the
IDLE state) and that has a persistence context, stopping twice in a row
raises no error, leaves the ioloop and the service state unchanged both
times, and each call performs exactly one durable save; moreover every
`stop` call, on every service, emits its durable save before any timer
manipulation. -/
theorem stop_twice_idle (io : IoLoop) (s : ServiceState)
    (h1 : lookupAssoc "every" s.params = some (PValue.VInt (-1)))
    (h2 : s.hasContext = true) :
    stop io s = ⟨none, io, s, [Ev.save s.serviceId]⟩ ∧
    stop (stop io s).io (stop io s).state =
      ⟨none, io, s, [Ev.save s.serviceId]⟩ ∧
    (∀ io2 s2, ∃ t, (stop io2 s2).trace = save_service_state s2 ++ t ∧
        ∀ e ∈ t, isTimerEv e = true) := by
  have hfirst : stop io s = ⟨none, io, s, [Ev.save s.serviceId]⟩ := by
    unfold stop
    rw [h1]
    simp [save_service_state, h2]
  refine ⟨hfirst, ?_, ?_⟩
  · rw [hfirst]
    exact hfirst
  · intro io2 s2
    cases hE : lookupAssoc "every" s2.params with
    | none => exact ⟨[], by simp [stop, hE], by simp⟩
    | some e =>
      by_cases he : e = PValue.VInt (-1)
      · subst he
        exact ⟨[], by simp [stop, hE], by simp⟩
      · cases hw : s2.worker with
        | none => exact ⟨[], by simp [stop, hE, he, hw], by simp⟩
        | some tid =>
          exact ⟨[Ev.timerStop tid], by simp [stop, hE, he, hw],
                 by simp [isTimerEv]⟩

def c2S0 : ServiceState :=
  { serviceId := 2, params := [("every", PValue.VInt (-1))] }

/-- Witness for C2 at a concrete idle service. -/
theorem stop_twice_idle_witness :
    stop ⟨0, []⟩ c2S0 = ⟨none, ⟨0, []⟩, c2S0, [Ev.save 2]⟩ :=
  (stop_twice_idle ⟨0, []⟩ c2S0 rfl rfl).1

def c3Entry : ManifestEntry :=
  { mandatory := true, ptype := .TEnum [PValue.VInt 5, PValue.VInt 10] }

def c3S0 : ServiceState :=
  { serviceId := 3, manifest := { params := [("every", c3Entry)] },
    params := [("every", PValue.VInt 5)] }

/-- C3 counterexample: on a service whose manifest declares `every` as
an enumeration allowing only 5 and 10, the `every` setter stores the
value 7 without error, although `validate_param` rejects exactly that
value; so a parameter value is stored without being validated against
the manifest. -/
theorem set_every_unvalidated_cex :
    (set_every ⟨0, []⟩ c3S0 (PValue.VInt 7)).err = none ∧
    lookupAssoc "every" (set_every ⟨0, []⟩ c3S0 (PValue.VInt 7)).state.params =
      some (PValue.VInt 7) ∧
    validate_param c3S0 "every" (PValue.VInt 7) =
      .error (.notInEnum "every") :=
  ⟨rfl, rfl, rfl⟩

/-- C3 amended: writes through the `every` setter bypass the manifest
validation contract entirely: for every service (hence every manifest)
with no active worker, the setter stores int(value) into the parameter
dictionary and consults neither the manifest nor `validate_param`. -/
theorem set_every_stores_unvalidated (io : IoLoop) (s : ServiceState)
    (v : PValue) (n : Int)
    (hw : s.worker = none) (hn : pyInt v = .ok n) :
    set_every io s v =
      ⟨none, io,
       { s with params := insertAssoc "every" (PValue.VInt n) s.params },
       []⟩ := by
  unfold set_every
  rw [hn]
  simp [hw]

/-- Witness for the amended C3 at the concrete enum-manifest service. -/
theorem set_every_stores_unvalidated_witness :
    set_every ⟨0, []⟩ c3S0 (PValue.VInt 7) =
      ⟨none, ⟨0, []⟩,
       { c3S0 with params := insertAssoc "every" (PValue.VInt 7) c3S0.params },
       []⟩ :=
  set_every_stores_unvalidated ⟨0, []⟩ c3S0 (PValue.VInt 7) 7 rfl rfl

/-- C7: invoking a callback name that is not registered on the service
is a no-op for every service state, every pair of delivery
collaborators and every payload: no error, unchanged state, no observable
effect. -/
theorem handle_callbacks_unregistered (s : ServiceState)
    (invokeNative : Nat → Arg → Except String Unit)
    (postRest : String → Arg → Except String Nat)
    (params : Option PValue) (name : String)
    (h : lookupAssoc name s.callbacks = none) :
    handle_callbacks s invokeNative postRest params name = (none, s, []) := by
  unfold handle_callbacks
  rw [h]

/-- A native delivery collaborator that always raises. -/
def failNative : Nat → Arg → Except String Unit :=
  fun _ _ => .error "native failure"

/-- A REST delivery collaborator that always raises. -/
def failPost : String → Arg → Except String Nat :=
  fun _ _ => .error "network failure"

def c7S0 : ServiceState := { serviceId := 7 }

/-- Witness for C7 at a concrete service with no callbacks, a payload,
and collaborators that would raise if they were ever reached. -/
theorem handle_callbacks_unregistered_witness :
    handle_callbacks c7S0 failNative failPost (some (PValue.VInt 3)) "ghost" =
      (none, c7S0, []) :=
  handle_callbacks_unregistered c7S0 failNative failPost
    (some (PValue.VInt 3)) "ghost" rfl

/-- C8: `handle_callbacks` never propagates a delivery failure and never
changes the service state: for every service, every callback name and
payload, and every pair of delivery collaborators, including ones that
raise, the call returns with no error and the state it was given. -/
theorem handle_callbacks_never_raises (s : ServiceState)
    (invokeNative : Nat → Arg → Except String Unit)
    (postRest : String → Arg → Except String Nat)
    (params : Option PValue) (name : String) :
    (handle_callbacks s invokeNative postRest params name).1 = none ∧
    (handle_callbacks s invokeNative postRest params name).2.1 = s := by
  constructor <;>
  · unfold handle_callbacks
    cases lookupAssoc name s.callbacks with
    | none => rfl
    | some entry =>
      cases hD : dispatch_one invokeNative postRest entry (pickArg params) with
      | ok evs => simp [hD]
      | error msg => simp [hD]

/-- Keys that do not occur in an association list look up to nothing. -/
lemma lookupAssoc_eq_none_of_not_mem {α β : Type} [DecidableEq α] (k : α)
    (l : List (α × β)) (h : k ∉ l.map Prod.fst) :
    lookupAssoc k l = none := by
  induction l with
  | nil => rfl
  | cons hd tl ih =>
    obtain ⟨k2, v⟩ := hd
    simp only [List.map_cons, List.mem_cons] at h
    push_neg at h
    unfold lookupAssoc
    rw [if_neg fun hh => h.1 hh.symm]
    exact ih h.2

/-- Erasing a key from an association list with unique keys removes its
binding. -/
lemma lookupAssoc_eraseAssoc_self {α β : Type} [DecidableEq α] (k : α)
    (l : List (α × β)) (h : (l.map Prod.fst).Nodup) :
    lookupAssoc k (eraseAssoc k l) = none := by
  induction l with
  | nil => rfl
  | cons hd tl ih =>
    obtain ⟨k2, v⟩ := hd
    simp only [List.map_cons, List.nodup_cons] at h
    unfold eraseAssoc
    by_cases hk : k2 = k
    · rw [if_pos hk]
      subst hk
      exact lookupAssoc_eq_none_of_not_mem k2 tl h.1
    · rw [if_neg hk]
      unfold lookupAssoc
      rw [if_neg hk]
      exact ih h.2

/-- C9: removing an absent project fails with the not-found error and
leaves the manager state unchanged; removing a registered project first
stops every owned service, then deletes the durable record, then the
in-memory entry, in that order, after which the identity is no longer
registered. -/
theorem remove_project_contract (st : PMState) (pid : Nat)
    (hk : (st.projects.map Prod.fst).Nodup) :
    (lookupAssoc pid st.projects = none →
      remove st pid = (some (.keyError (toString pid)), st, [])) ∧
    (∀ p, lookupAssoc pid st.projects = some p →
      remove st pid =
        (none, ⟨eraseAssoc pid st.projects⟩,
         p.services.map PEv.stopSvc ++
           [PEv.dbDelete pid, PEv.memDelete pid]) ∧
      lookupAssoc pid (eraseAssoc pid st.projects) = none) := by
  constructor
  · intro h
    unfold remove
    rw [h]
  · intro p h
    constructor
    · unfold remove
      rw [h]
      rfl
    · exact lookupAssoc_eraseAssoc_self pid st.projects hk

def c9P : Project := ⟨7, [101, 102]⟩

def c9St : PMState := ⟨[(7, c9P)]⟩

/-- Witness for C9: removing an unknown id fails and changes nothing;
removing project 7 emits the stops of its two services, then the record
deletion, then the entry deletion. -/
theorem remove_project_contract_witness :
    remove c9St 8 = (some (.keyError "8"), c9St, []) ∧
    remove c9St 7 =
      (none, ⟨[]⟩,
       [PEv.stopSvc 101, PEv.stopSvc 102, PEv.dbDelete 7, PEv.memDelete 7]) := by
  refine ⟨(remove_project_contract c9St 8 (by decide)).1 rfl, ?_⟩
  exact ((remove_project_contract c9St 7 (by decide)).2 c9P rfl).1

end EmpowerCore
